import Mathlib

/-!
Shallow embedding of the DCF valuation application (`src/main.py`).

Real (Python `float`) arithmetic is modelled exactly over `ℚ`; every
claim under verification is an algebraic identity or sign/shape property
of the computation, not a rounding property.  Python's `float` division
raising `ZeroDivisionError` on a zero denominator is modelled by an
`Except`-valued division where the zero case is explicit.
-/

/-- One row of the year-by-year projection table built inside the
computation loop (`rows.append({...})` in `main.py`): the year index
`t`, the projected FCF for that year (`pred_fcf`) and its present
value (`pv`). -/
structure Row where
  year : Nat
  predFcf : ℚ
  pv : ℚ
deriving DecidableEq, Repr

/-- The inputs feeding the computation block of `main.py`
(lines 114-154): the three fetched/manually entered scalars, the
ticker label, and the three sidebar parameters.  `ticker` and
`currentPrice` are used only by the display layer. -/
structure ValuationInputs where
  ticker : String
  currentPrice : ℚ
  sharesOutstanding : ℚ
  latestFcf : ℚ
  discountRate : ℚ
  growthRate : ℚ
  terminalGrowth : ℚ
deriving DecidableEq, Repr

/-- The two validation failures of the computation block:
`shares_outstanding == 0` (line 117) and
`discount_rate <= terminal_growth` (line 147). -/
inductive ValuationError where
  | sharesZero
  | invalidRates
deriving DecidableEq, Repr

/-- The successful output of the computation block: the five projection
rows plus the aggregate figures of lines 150-154. -/
structure ValuationResult where
  rows : List Row
  terminalValue : ℚ
  pvTerminalValue : ℚ
  enterpriseValue : ℚ
  intrinsicValue : ℚ
deriving DecidableEq, Repr

/-- `projection_years = 5` (line 121). -/
def projection_years : Nat := 5

/-- The projection loop of lines 129-142: iterate over the year indices
`ts`, carrying `current_fcf_val` (`cur`); each step computes
`pred_fcf = cur * (1 + growth_rate)`, `disc_factor = (1+discount_rate)^t`
and `pv = pred_fcf / disc_factor`, emits a row, and continues with
`current_fcf_val = pred_fcf`. -/
def dcfRows (growth_rate discount_rate : ℚ) : ℚ → List Nat → List Row
  | _, [] => []
  | cur, t :: ts =>
    let pred_fcf := cur * (1 + growth_rate)
    let disc_factor := (1 + discount_rate) ^ t
    let pv := pred_fcf / disc_factor
    { year := t, predFcf := pred_fcf, pv := pv } ::
      dcfRows growth_rate discount_rate pred_fcf ts

/-- The computation block of `main.py` lines 114-154 as a pure function.
Order is the code's: the `shares_outstanding == 0` check first, then the
projection loop, then the `discount_rate <= terminal_growth` check, and
only past it the terminal value, its present value, the enterprise value
(`sum(pv_fcfs) + pv_terminal_value`) and the intrinsic value per share.
A failed check shows only an error message: no partial result escapes,
which `Except.error` captures. -/
def compute_valuation (inp : ValuationInputs) : Except ValuationError ValuationResult :=
  if inp.sharesOutstanding = 0 then
    .error .sharesZero
  else
    let rows := dcfRows inp.growthRate inp.discountRate inp.latestFcf
      (List.range' 1 projection_years)
    let future_fcfs := rows.map Row.predFcf
    let pv_fcfs := rows.map Row.pv
    if inp.discountRate ≤ inp.terminalGrowth then
      .error .invalidRates
    else
      let terminal_value :=
        (future_fcfs.getLastD 0 * (1 + inp.terminalGrowth)) /
          (inp.discountRate - inp.terminalGrowth)
      let pv_terminal_value := terminal_value / (1 + inp.discountRate) ^ projection_years
      let enterprise_value := pv_fcfs.sum + pv_terminal_value
      let intrinsic_value := enterprise_value / inp.sharesOutstanding
      .ok { rows := rows
            terminalValue := terminal_value
            pvTerminalValue := pv_terminal_value
            enterpriseValue := enterprise_value
            intrinsicValue := intrinsic_value }

/-- Python `float` division: raises `ZeroDivisionError` on a zero
denominator, otherwise yields the exact quotient. -/
inductive PyError where
  | zeroDivision
deriving DecidableEq, Repr

/-- The display-layer delta of lines 164-165:
`diff = intrinsic_value - current_price;
diff_pct = (diff / current_price) * 100`, with the division's
zero-denominator failure made explicit. -/
def diff_pct (intrinsic_value current_price : ℚ) : Except PyError ℚ :=
  if current_price = 0 then .error .zeroDivision
  else .ok ((intrinsic_value - current_price) / current_price * 100)

/-- The cash-flow statement returned by the external provider, as
`get_stock_data_safe` reads it: the latest-column value of the
`'Free Cash Flow'` row when that row is present, and the latest-column
values of the `'Operating Cash Flow'` and `'Investing Cash Flow'` rows
used by the fallback of lines 46-48. -/
structure CashFlowStmt where
  freeCashFlow : Option ℚ
  operatingCashFlow : ℚ
  investingCashFlow : ℚ
deriving DecidableEq, Repr

/-- One complete outcome of the external Yahoo Finance queries that
`get_stock_data_safe` issues inside its `try` block: either some call
raises an exception carrying a message (`str(e)` of the Python
exception, possibly the empty string), or the calls return data —
whether `stock.info` was non-empty/truthy, the closing prices of
`stock.history(period="5d")` (empty list for an empty frame),
`info.get('sharesOutstanding')` (`none` when the key is absent), and
`stock.cashflow` (`none` for an empty frame). -/
inductive FetchOutcome where
  | raises (msg : String)
  | returns (infoNonempty : Bool) (historyClose : List ℚ)
      (sharesOutstanding : Option ℚ) (cashflow : Option CashFlowStmt)
deriving DecidableEq, Repr

/-- `get_stock_data_safe` of `main.py` lines 13-54, as a function of the
external query outcome.  Follows the code's order: the `info` truthiness
check, the empty-history check with `current_price` the last close, the
falsy `shares_outstanding` check (`not shares_outstanding` is true for
both a missing key and a zero value), the empty-cash-flow check, then
`latest_fcf` from the `'Free Cash Flow'` row when present or from
operating + investing cash flow otherwise.  Any exception is caught and
returned as `(None, None, None, str(e))`. -/
def get_stock_data_safe (w : FetchOutcome) :
    Option ℚ × Option ℚ × Option ℚ × Option String :=
  match w with
  | .raises msg => (none, none, none, some msg)
  | .returns infoNonempty historyClose shares cashflow =>
    if !infoNonempty then
      (none, none, none, some "基本情報の取得に失敗")
    else
      match historyClose.getLast? with
      | none => (none, none, none, some "株価データの取得に失敗")
      | some current_price =>
        if shares = none ∨ shares = some 0 then
          (none, none, none, some "発行済株式数の取得に失敗")
        else
          match cashflow with
          | none => (none, none, none, some "キャッシュフロー計算書の取得に失敗")
          | some cf =>
            let latest_fcf :=
              match cf.freeCashFlow with
              | some v => v
              | none => cf.operatingCashFlow + cf.investingCashFlow
            (some current_price, shares, some latest_fcf, none)

/-- Concrete inputs taken from the specification's worked scenario:
base FCF 1,000,000, growth 3 %, discount 8 %, terminal growth 1 %,
1,000,000 shares outstanding. -/
def sampleInputs : ValuationInputs :=
  { ticker := "7203.T", currentPrice := 1000, sharesOutstanding := 1000000,
    latestFcf := 1000000, discountRate := 8/100, growthRate := 3/100,
    terminalGrowth := 1/100 }

/-- The specification's negative-FCF scenario: the sample inputs with
`base_fcf = -500000`. -/
def negFcfInputs : ValuationInputs :=
  { sampleInputs with latestFcf := -500000 }

/-- The five year indices the projection loop visits. -/
theorem range_five : List.range' 1 projection_years = [1, 2, 3, 4, 5] := rfl

/-- Claim C1 (amended): `compute_valuation` fails if and only if
`discount_rate ≤ terminal_growth_rate` or `shares_outstanding == 0`
(the code tests equality with zero, not `≤ 0`); in every failure case
no result, not even a partial one, is produced, and in every other
case a full result is produced. -/
theorem C1_amended (inp : ValuationInputs) :
    ((∃ e, compute_valuation inp = Except.error e) ↔
      (inp.discountRate ≤ inp.terminalGrowth ∨ inp.sharesOutstanding = 0)) ∧
    ((∃ res, compute_valuation inp = Except.ok res) ↔
      ¬ (inp.discountRate ≤ inp.terminalGrowth ∨ inp.sharesOutstanding = 0)) := by
  by_cases hs : inp.sharesOutstanding = 0 <;>
    by_cases hr : inp.discountRate ≤ inp.terminalGrowth <;>
      simp [compute_valuation, hs, hr]

/-- Claim C1, counterexample to the claim as stated: with
`shares_outstanding = -1` (which is `≤ 0`) and a valid rate pair the
code computes a full result instead of failing, because the source only
rejects `shares_outstanding == 0`. -/
theorem C1_counterexample :
    ({ sampleInputs with sharesOutstanding := -1 }.sharesOutstanding ≤ 0 ∧
     { sampleInputs with sharesOutstanding := -1 }.terminalGrowth <
       { sampleInputs with sharesOutstanding := -1 }.discountRate) ∧
    (compute_valuation { sampleInputs with sharesOutstanding := -1 }).isOk = true := by
  refine ⟨⟨by norm_num [sampleInputs], by norm_num [sampleInputs]⟩, ?_⟩
  norm_num [compute_valuation, sampleInputs]
  rfl

/-- Claim C2: for every valid input and every year `t` in `1..5`, the
projected FCF of row `t` equals `base_fcf * (1+g)^t` and its present
value equals that projected FCF divided by `(1+r)^t`. -/
theorem C2_projection (inp : ValuationInputs) (t : Nat) (h1 : 1 ≤ t) (h5 : t ≤ 5)
    (hs : inp.sharesOutstanding ≠ 0) (hr : inp.terminalGrowth < inp.discountRate) :
    ∃ res, compute_valuation inp = Except.ok res ∧
      res.rows[t - 1]? = some
        { year := t,
          predFcf := inp.latestFcf * (1 + inp.growthRate) ^ t,
          pv := inp.latestFcf * (1 + inp.growthRate) ^ t /
            (1 + inp.discountRate) ^ t } := by
  have hr' : ¬ inp.discountRate ≤ inp.terminalGrowth := not_le.mpr hr
  refine ⟨_, by simp only [compute_valuation, if_neg hs, if_neg hr']; rfl, ?_⟩
  interval_cases t <;>
    simp [dcfRows, range_five, Row.mk.injEq] <;>
    (try constructor) <;> (try ring)

/-- Claim C2, witness at the sample inputs and year 3. -/
theorem C2_witness :
    ∃ res, compute_valuation sampleInputs = Except.ok res ∧
      res.rows[3 - 1]? = some
        { year := 3,
          predFcf := sampleInputs.latestFcf * (1 + sampleInputs.growthRate) ^ 3,
          pv := sampleInputs.latestFcf * (1 + sampleInputs.growthRate) ^ 3 /
            (1 + sampleInputs.discountRate) ^ 3 } :=
  C2_projection sampleInputs 3 (by norm_num) (by norm_num)
    (by norm_num [sampleInputs]) (by norm_num [sampleInputs])

/-- Claim C3: for every valid input the terminal value equals the
year-5 projected FCF times `(1 + terminal_growth_rate)` divided by
`(discount_rate - terminal_growth_rate)`, and its present value equals
the terminal value divided by `(1 + discount_rate)^5`. -/
theorem C3_terminal (inp : ValuationInputs)
    (hs : inp.sharesOutstanding ≠ 0) (hr : inp.terminalGrowth < inp.discountRate) :
    ∃ res, compute_valuation inp = Except.ok res ∧
      res.terminalValue = inp.latestFcf * (1 + inp.growthRate) ^ 5 *
        (1 + inp.terminalGrowth) / (inp.discountRate - inp.terminalGrowth) ∧
      res.pvTerminalValue = res.terminalValue / (1 + inp.discountRate) ^ 5 := by
  have hr' : ¬ inp.discountRate ≤ inp.terminalGrowth := not_le.mpr hr
  refine ⟨_, by simp only [compute_valuation, if_neg hs, if_neg hr']; rfl, ?_, ?_⟩
  · simp [dcfRows, range_five]
    ring
  · simp [dcfRows, range_five, projection_years]

/-- Claim C3, witness at the sample inputs. -/
theorem C3_witness :
    ∃ res, compute_valuation sampleInputs = Except.ok res ∧
      res.terminalValue = sampleInputs.latestFcf * (1 + sampleInputs.growthRate) ^ 5 *
        (1 + sampleInputs.terminalGrowth) /
        (sampleInputs.discountRate - sampleInputs.terminalGrowth) ∧
      res.pvTerminalValue = res.terminalValue / (1 + sampleInputs.discountRate) ^ 5 :=
  C3_terminal sampleInputs (by norm_num [sampleInputs]) (by norm_num [sampleInputs])

/-- Claim C4: every successful result carries the full five-row
year-by-year projection (years 1..5 in order) plus the aggregates, with
the enterprise value the sum of the per-year present values plus the
present value of the terminal value, and the intrinsic value per share
the enterprise value divided by `shares_outstanding`. -/
theorem C4_aggregates (inp : ValuationInputs)
    (hs : inp.sharesOutstanding ≠ 0) (hr : inp.terminalGrowth < inp.discountRate) :
    ∃ res, compute_valuation inp = Except.ok res ∧
      res.rows.length = 5 ∧ res.rows.map Row.year = [1, 2, 3, 4, 5] ∧
      res.enterpriseValue = (res.rows.map Row.pv).sum + res.pvTerminalValue ∧
      res.intrinsicValue = res.enterpriseValue / inp.sharesOutstanding := by
  have hr' : ¬ inp.discountRate ≤ inp.terminalGrowth := not_le.mpr hr
  refine ⟨_, by simp only [compute_valuation, if_neg hs, if_neg hr']; rfl, ?_, ?_, rfl, rfl⟩
  · simp [dcfRows, range_five]
  · simp [dcfRows, range_five]

/-- Claim C4, witness at the sample inputs. -/
theorem C4_witness :
    ∃ res, compute_valuation sampleInputs = Except.ok res ∧
      res.rows.length = 5 ∧ res.rows.map Row.year = [1, 2, 3, 4, 5] ∧
      res.enterpriseValue = (res.rows.map Row.pv).sum + res.pvTerminalValue ∧
      res.intrinsicValue = res.enterpriseValue / sampleInputs.sharesOutstanding :=
  C4_aggregates sampleInputs (by norm_num [sampleInputs]) (by norm_num [sampleInputs])

/-- Closed form of the enterprise value of any successful computation:
the base FCF times a factor depending only on the three rates.  Needs
`1 + discount_rate ≠ 0` so the denominators can be cleared. -/
theorem enterprise_closed_form (inp : ValuationInputs)
    (hs : inp.sharesOutstanding ≠ 0) (hr' : ¬ inp.discountRate ≤ inp.terminalGrowth)
    (hr1 : (1 : ℚ) + inp.discountRate ≠ 0)
    (res : ValuationResult) (h : compute_valuation inp = Except.ok res) :
    res.enterpriseValue = inp.latestFcf *
      ((1 + inp.growthRate) / (1 + inp.discountRate) +
       (1 + inp.growthRate) ^ 2 / (1 + inp.discountRate) ^ 2 +
       (1 + inp.growthRate) ^ 3 / (1 + inp.discountRate) ^ 3 +
       (1 + inp.growthRate) ^ 4 / (1 + inp.discountRate) ^ 4 +
       (1 + inp.growthRate) ^ 5 / (1 + inp.discountRate) ^ 5 +
       (1 + inp.growthRate) ^ 5 * (1 + inp.terminalGrowth) /
         ((inp.discountRate - inp.terminalGrowth) * (1 + inp.discountRate) ^ 5)) := by
  have hd : inp.discountRate - inp.terminalGrowth ≠ 0 := by
    intro h0
    exact hr' (by linarith [sub_eq_zero.mp h0])
  simp only [compute_valuation, if_neg hs, if_neg hr', Except.ok.injEq] at h
  subst h
  simp [dcfRows, range_five, projection_years]
  field_simp
  ring

/-- Claim C5: a negative base FCF with a positive growth rate and
otherwise valid parameters is not rejected; the computation succeeds
and yields a negative enterprise value. -/
theorem C5_negative_fcf (inp : ValuationInputs)
    (hF : inp.latestFcf < 0) (hg : 0 < inp.growthRate)
    (hgt : 0 ≤ inp.terminalGrowth) (hr : inp.terminalGrowth < inp.discountRate)
    (hs : inp.sharesOutstanding ≠ 0) :
    ∃ res, compute_valuation inp = Except.ok res ∧ res.enterpriseValue < 0 := by
  have hr' : ¬ inp.discountRate ≤ inp.terminalGrowth := not_le.mpr hr
  obtain ⟨res, hok⟩ : ∃ res, compute_valuation inp = Except.ok res :=
    ⟨_, by simp only [compute_valuation, if_neg hs, if_neg hr']; rfl⟩
  refine ⟨res, hok, ?_⟩
  have hr1 : (1 : ℚ) + inp.discountRate ≠ 0 := by
    have : (0:ℚ) < inp.discountRate := lt_of_le_of_lt hgt hr
    intro h0
    linarith
  rw [enterprise_closed_form inp hs hr' hr1 res hok]
  have hg1 : (0:ℚ) < 1 + inp.growthRate := by linarith
  have hr0 : (0:ℚ) < inp.discountRate := lt_of_le_of_lt hgt hr
  have hr2 : (0:ℚ) < 1 + inp.discountRate := by linarith
  have hgt1 : (0:ℚ) < 1 + inp.terminalGrowth := by linarith
  have hdiff : (0:ℚ) < inp.discountRate - inp.terminalGrowth := by linarith
  apply mul_neg_of_neg_of_pos hF
  have t1 := div_pos hg1 hr2
  have t2 := div_pos (pow_pos hg1 2) (pow_pos hr2 2)
  have t3 := div_pos (pow_pos hg1 3) (pow_pos hr2 3)
  have t4 := div_pos (pow_pos hg1 4) (pow_pos hr2 4)
  have t5 := div_pos (pow_pos hg1 5) (pow_pos hr2 5)
  have t6 := div_pos (mul_pos (pow_pos hg1 5) hgt1) (mul_pos hdiff (pow_pos hr2 5))
  linarith

/-- Claim C5, witness at the negative-FCF scenario of the spec
(`base_fcf = -500000`, otherwise the sample parameters). -/
theorem C5_witness :
    ∃ res, compute_valuation negFcfInputs = Except.ok res ∧ res.enterpriseValue < 0 :=
  C5_negative_fcf negFcfInputs (by norm_num [negFcfInputs, sampleInputs])
    (by norm_num [negFcfInputs, sampleInputs]) (by norm_num [negFcfInputs, sampleInputs])
    (by norm_num [negFcfInputs, sampleInputs]) (by norm_num [negFcfInputs, sampleInputs])

/-- Claim C6: `compute_valuation` is deterministic — two invocations on
identical inputs give identical results; the embedding carries no state
besides the explicit input record. -/
theorem C6_deterministic (i1 i2 : ValuationInputs) (h : i1 = i2) :
    compute_valuation i1 = compute_valuation i2 := by
  rw [h]

/-- Claim C6, witness at the sample inputs. -/
theorem C6_witness :
    compute_valuation sampleInputs = compute_valuation sampleInputs :=
  C6_deterministic sampleInputs sampleInputs rfl

/-- Claim C7: once the fetch reaches the cash-flow step, `latest_fcf`
is the reported `'Free Cash Flow'` figure when that row is present, and
operating plus investing cash flow when it is absent (`Option.getD`
packages exactly those two cases). -/
theorem C7_fcf_source (hist : List ℚ) (p sh : ℚ) (cf : CashFlowStmt)
    (hp : hist.getLast? = some p) (hsh : sh ≠ 0) :
    get_stock_data_safe (FetchOutcome.returns true hist (some sh) (some cf)) =
      (some p, some sh,
        some (cf.freeCashFlow.getD (cf.operatingCashFlow + cf.investingCashFlow)),
        none) := by
  simp [get_stock_data_safe, hp, hsh]
  cases h : cf.freeCashFlow <;> simp [h]

/-- Claim C7, witness on a statement without a `'Free Cash Flow'` row:
the fallback sums operating (30) and investing (-10) cash flow. -/
theorem C7_witness :
    get_stock_data_safe (FetchOutcome.returns true [100] (some 50)
        (some { freeCashFlow := none, operatingCashFlow := 30, investingCashFlow := -10 })) =
      (some 100, some 50, some 20, none) := by
  have h := C7_fcf_source [100] 100 50
    { freeCashFlow := none, operatingCashFlow := 30, investingCashFlow := -10 }
    rfl (by norm_num)
  norm_num at h
  exact h

/-- Claim C8, counterexample to the claim as stated: a thrown exception
whose message stringifies to the empty string is caught and returned as
three `None`s with an empty — not non-empty — error reason. -/
theorem C8_counterexample :
    ¬ ((∃ p s f, get_stock_data_safe (FetchOutcome.raises "") =
          (some p, some s, some f, none)) ∨
       (∃ msg, msg ≠ "" ∧ get_stock_data_safe (FetchOutcome.raises "") =
          (none, none, none, some msg))) := by
  simp [get_stock_data_safe]

/-- Claim C8 (amended): `get_stock_data_safe` never propagates an
exception; it returns either all three scalars with a `None` error, or
three `None` values with an error reason, and that reason can be empty
only when the caught exception itself carried an empty message. -/
theorem C8_amended (w : FetchOutcome) :
    (∃ p s f, get_stock_data_safe w = (some p, some s, some f, none)) ∨
    (∃ msg, get_stock_data_safe w = (none, none, none, some msg) ∧
      (msg = "" → w = FetchOutcome.raises "")) := by
  cases w with
  | raises msg =>
    right
    refine ⟨msg, rfl, ?_⟩
    rintro rfl
    rfl
  | returns info hist shares cf =>
    cases info with
    | false =>
      right
      exact ⟨_, rfl, by intro h; exact absurd h (by decide)⟩
    | true =>
      cases hh : hist.getLast? with
      | none =>
        right
        refine ⟨"株価データの取得に失敗", ?_, by intro h; exact absurd h (by decide)⟩
        simp [get_stock_data_safe, hh]
      | some price =>
        by_cases hsh : shares = none ∨ shares = some 0
        · right
          refine ⟨"発行済株式数の取得に失敗", ?_, by intro h; exact absurd h (by decide)⟩
          simp [get_stock_data_safe, hh, hsh]
        · cases cf with
          | none =>
            right
            refine ⟨"キャッシュフロー計算書の取得に失敗", ?_,
              by intro h; exact absurd h (by decide)⟩
            simp [get_stock_data_safe, hh, hsh]
          | some c =>
            left
            obtain ⟨s, rfl⟩ : ∃ s, shares = some s := by
              cases shares with
              | none => exact absurd (Or.inl rfl) hsh
              | some s => exact ⟨s, rfl⟩
            have hs0 : s ≠ 0 := by
              intro h0
              exact hsh (Or.inr (by rw [h0]))
            refine ⟨price, s,
              c.freeCashFlow.getD (c.operatingCashFlow + c.investingCashFlow), ?_⟩
            simp [get_stock_data_safe, hh, hs0]
            cases hf : c.freeCashFlow <;> simp [hf]

/-- Claim C9: with `current_price = 0` and otherwise valid parameters
the valuation itself succeeds, yet the displayed percentage delta
`(intrinsic_value - current_price) / current_price * 100` divides by
zero (a `ZeroDivisionError` in the source's unguarded float division). -/
theorem C9_zero_price (inp : ValuationInputs)
    (hp : inp.currentPrice = 0)
    (hs : inp.sharesOutstanding ≠ 0) (hr : inp.terminalGrowth < inp.discountRate) :
    ∃ res, compute_valuation inp = Except.ok res ∧
      diff_pct res.intrinsicValue inp.currentPrice = Except.error PyError.zeroDivision := by
  have hr' : ¬ inp.discountRate ≤ inp.terminalGrowth := not_le.mpr hr
  refine ⟨_, by simp only [compute_valuation, if_neg hs, if_neg hr']; rfl, ?_⟩
  simp [diff_pct, hp]

/-- Claim C9, witness at the sample inputs with a zero current price. -/
theorem C9_witness :
    ∃ res, compute_valuation { sampleInputs with currentPrice := 0 } = Except.ok res ∧
      diff_pct res.intrinsicValue { sampleInputs with currentPrice := 0 }.currentPrice =
        Except.error PyError.zeroDivision :=
  C9_zero_price { sampleInputs with currentPrice := 0 } rfl
    (by norm_num [sampleInputs]) (by norm_num [sampleInputs])

/-- Claim C10: the valuation output does not depend on the display-only
inputs — two runs agreeing on base FCF, growth rate, discount rate,
terminal growth rate and shares outstanding but differing in current
price and ticker label produce identical results. -/
theorem C10_noninterference (i1 i2 : ValuationInputs)
    (hf : i1.latestFcf = i2.latestFcf) (hg : i1.growthRate = i2.growthRate)
    (hr : i1.discountRate = i2.discountRate)
    (ht : i1.terminalGrowth = i2.terminalGrowth)
    (hs : i1.sharesOutstanding = i2.sharesOutstanding) :
    compute_valuation i1 = compute_valuation i2 := by
  cases i1; cases i2
  simp_all [compute_valuation]

/-- Claim C10, witness: the sample inputs against the same inputs with
a different ticker and current price. -/
theorem C10_witness :
    compute_valuation sampleInputs =
      compute_valuation { sampleInputs with ticker := "X", currentPrice := 0 } :=
  C10_noninterference sampleInputs { sampleInputs with ticker := "X", currentPrice := 0 }
    rfl rfl rfl rfl rfl
